import Mathlib

/-!
Shallow embedding of the return-lag statistical core of the
Returns-Insight-Pro repository: the lag-distribution builder, the cohort
gross-up projector (`analyzeMaturity`, src maturityAnalyzer) and the
fairness contrast engine (`analyzeContrast`, src contrastAnalyzer).

Modelling conventions:
* Calendar dates are integers counting whole days since the Unix epoch.
  The source manipulates millisecond timestamps that are always whole
  multiples of `MS_PER_DAY`, divides by `MS_PER_DAY` and floors, so at
  day granularity every `Math.floor((a - b) / MS_PER_DAY)` is plain
  integer subtraction and `new Date(t).toISOString().split('T')[0]` is
  the identity.
* JS floating-point numbers that carry fractions (rates, cumulative
  percentages) are modelled by exact rationals `ℚ`; unit counts stay in
  `Nat`.  The percentile index computations `Math.floor(n * 0.5)`,
  `Math.floor(n * 0.2)`, `Math.floor(n * 0.9)` and
  `Math.floor(n * 0.95)` agree with the exact integer divisions
  `n / 2`, `n / 5`, `n * 9 / 10`, `n * 19 / 20` for every array length
  that can occur (checked exhaustively far beyond the documented
  bounded dataset sizes), so they are embedded as such.
* `Array.prototype.sort` with a numeric comparator is a stable sort; it
  is embedded as `List.insertionSort`, which is also stable, and every
  sort in this program sorts by keys that are either totally ordered
  values with equal duplicates (the lag samples) or pairwise distinct
  (per-day rows keyed by distinct dates), so the two sorts produce
  identical output.
* Fallible entry points return `Option`: the source returns `null`.
* Presentation-only string fields (ASIN identity, bucket labels) are
  omitted; no claim mentions them.
-/

namespace ReturnsInsight

/-- One raw order row (src types.ts `RawOrderRow`); the identity strings
`order_id` / `asin` / `fasin` play no role in the analysed claims and are
omitted.  `purchase_date` is a day number, `return_date` is optional,
`units_returned` is optional (JS `number | null`, with the type contract
of the spec: a nonnegative integer). -/
structure RawOrderRow where
  purchase_date : Int
  return_date : Option Int
  units_sold : Nat
  units_returned : Option Nat
deriving DecidableEq, Repr, Inhabited

/-- The slice of `AppData` (src types.ts) consumed by the two engines. -/
structure AppData where
  return_order : Option (List RawOrderRow)
  t0Date : Option Int
  comparisonSpan : Option Int
deriving DecidableEq, Repr, Inhabited

/-- src maturityAnalyzer `getReturnCount` (identical helper repeated in
contrastAnalyzer): `units_returned` if truthy and positive, else
`units_sold` when a return date is present, else 0. -/
def getReturnCount (o : RawOrderRow) : Nat :=
  match o.units_returned with
  | some u => if 0 < u then u else if o.return_date.isSome then o.units_sold else 0
  | none => if o.return_date.isSome then o.units_sold else 0

/-- The `maxTime` accumulation shared by both engines: fold starting at 0,
keeping the strictly larger purchase time (the JS `let maxTime = 0;
forEach(... if (t > maxTime) maxTime = t)`). -/
def maxPurchaseTime (orders : List RawOrderRow) : Int :=
  orders.foldl (fun m o => if o.purchase_date > m then o.purchase_date else m) 0

/-- src maturityAnalyzer `DateRange`; the JS field `end` is spelled
`stop` (`end` is reserved).  Empty subsets carry `'-'` markers in the
source, embedded as `none`. -/
structure DateRange where
  start : Option Int
  stop : Option Int
  daysSpan : Int
deriving DecidableEq, Repr, Inhabited

/-- src maturityAnalyzer `getRangeInfo`. -/
def getRangeInfo (subset : List RawOrderRow) : DateRange :=
  match subset.map (·.purchase_date) with
  | [] => { start := none, stop := none, daysSpan := 0 }
  | t :: ts =>
    let mn := ts.foldl min t
    let mx := ts.foldl max t
    { start := some mn, stop := some mx, daysSpan := mx - mn + 1 }

/-- The baseline window filter of src maturityAnalyzer step 2:
orders with `t0 - 60 ≤ purchase_date < t0`. -/
def preSubsetOf (orders : List RawOrderRow) (t0 : Int) : List RawOrderRow :=
  orders.filter (fun o => decide (t0 - 60 ≤ o.purchase_date ∧ o.purchase_date < t0))

/-- src maturityAnalyzer step 3: build the lag sample array from the
baseline subset.  For each row with positive effective return count and a
return date, the day lag is pushed once per effective-returned unit,
provided it is nonnegative. -/
def buildLags (preSubset : List RawOrderRow) : List Nat :=
  preSubset.foldl (fun acc o =>
    let rCount := getReturnCount o
    match o.return_date with
    | some r =>
      if 0 < rCount then
        let diffDays : Int := r - o.purchase_date
        if 0 ≤ diffDays then acc ++ List.replicate rCount diffDays.toNat else acc
      else acc
    | none => acc) []

/-- src maturityAnalyzer step 4 (lines 174-192): percentile markers from
the ascending-sorted sample array, with defaults for the empty case and
the final clamping passes.  Returns `(p20_value, d_value, p90_value)`.
Note that the initial `p90` candidate `max (dRaw + 5) sample[i90]` uses
the raw `d_value` (the source only clamps `d_value` afterwards), while
the final `[d+1, 90]` clamp uses the clamped one. -/
def computeMarkers (lags : List Nat) : Nat × Nat × Nat :=
  let n := lags.length
  let dRaw := if 0 < n then lags.getD (n / 2) 0 else 14
  let p20Raw := if 0 < n then max 1 (lags.getD (n / 5) 0) else 4
  let p90Raw := if 0 < n then max (dRaw + 5) (lags.getD (n * 9 / 10) 0) else 30
  let d := max 5 (min dRaw 60)
  let p20a := min p20Raw (d - 1)
  let p20 := if p20a < 1 then 1 else p20a
  let p90 := max (d + 1) (min p90Raw 90)
  (p20, d, p90)

/-- src maturityAnalyzer `LagBucket`: one 2-day histogram bucket. -/
structure LagBucket where
  days : Nat
  count : Nat
  cumulativePct : ℚ
deriving DecidableEq, Repr, Inhabited

/-- src maturityAnalyzer step 5: the 2-day-bucket histogram with running
cumulative fraction, built only when there are samples.  The loop
`for (i = 0; i <= finalLimit; i += 2)` visits `finalLimit / 2 + 1`
bucket starts. -/
def buildHistogram (lags : List Nat) (p90_value : Nat) : List LagBucket :=
  if 0 < lags.length then
    let n := lags.length
    let limitVal := max (lags.getD (n * 19 / 20) 0) (p90_value + 14)
    let finalLimit := min limitVal 120
    ((List.range (finalLimit / 2 + 1)).foldl (fun (st : List LagBucket × Nat) j =>
      let i := 2 * j
      let count := (lags.filter (fun l => decide (i ≤ l ∧ l < i + 2))).length
      let cum := st.2 + count
      (st.1 ++ [{ days := i, count := count, cumulativePct := (cum : ℚ) / (n : ℚ) }], cum))
      ([], 0)).1
  else []

/-- Models `distribution.slice().reverse().find(b => b.days <= day)`
together with the subsequent `distribution.indexOf(bucket)`: the last
bucket whose start is at most `day`, with its index.  (`indexOf` uses
reference equality in JS; the two agree because bucket starts strictly
increase, so buckets are pairwise distinct.) -/
def findLastLE (dist : List LagBucket) (day : Int) : Option (Nat × LagBucket) :=
  dist.enum.reverse.find? (fun p => decide ((p.2.days : Int) ≤ day))

/-- src maturityAnalyzer `getCumulativePct`: cumulative lag coverage at a
given age, linearly interpolated between bracketing buckets; 1 for an
empty histogram, 0 below the first bucket, and the last bucket's
fraction beyond the end. -/
def getCumulativePct (dist : List LagBucket) (day : Int) : ℚ :=
  if dist.length = 0 then 1
  else
    match findLastLE dist day with
    | none => 0
    | some (idx, bucket) =>
      match dist[idx + 1]? with
      | none => bucket.cumulativePct
      | some nextBucket =>
        let range : ℚ := (nextBucket.days : ℚ) - (bucket.days : ℚ)
        let progress : ℚ := ((day : ℚ) - (bucket.days : ℚ)) / range
        let pctRange := nextBucket.cumulativePct - bucket.cumulativePct
        bucket.cumulativePct + progress * pctRange

/-- Sanity check: the Scenario 1 sample yields `P20 = 2`, `P50 = 5`,
`P90 = 20`. -/
theorem computeMarkers_scenario1 : computeMarkers [2, 2, 5, 5, 5, 8, 10, 12, 20] = (2, 5, 20) := by
  decide

/-- Sanity check: the empty sample falls back to the fixed defaults. -/
theorem computeMarkers_empty_defaults : computeMarkers [] = (4, 14, 30) := by
  decide

/-- src maturityAnalyzer `MaturityMetrics`. -/
structure MaturityMetrics where
  volume : Nat
  returns : Nat
  rate : ℚ
  range : DateRange
deriving DecidableEq, Repr, Inhabited

/-- src maturityAnalyzer `calcStats`: volume, effective returns, guarded
rate, and the date range of a subset. -/
def calcStats (subset : List RawOrderRow) : MaturityMetrics :=
  let vol := (subset.map (·.units_sold)).sum
  let ret := (subset.map getReturnCount).sum
  { volume := vol
    returns := ret
    rate := if 0 < vol then (ret : ℚ) / (vol : ℚ) else 0
    range := getRangeInfo subset }

/-- One per-purchase-day aggregate of the forecast cohort (`dailyMap`
entry in src maturityAnalyzer; `pTime` coincides with the date key at
day granularity). -/
structure DayAgg where
  date : Int
  vol : Nat
  ret : Nat
deriving DecidableEq, Repr, Inhabited

/-- One `forEach` step of filling `dailyMap`: update the existing entry
for the order's purchase day or append a fresh one (JS `Map` preserves
insertion order). -/
def upsertDay (acc : List DayAgg) (o : RawOrderRow) : List DayAgg :=
  if acc.any (fun e => e.date = o.purchase_date) then
    acc.map (fun e =>
      if e.date = o.purchase_date then
        { e with vol := e.vol + o.units_sold, ret := e.ret + getReturnCount o }
      else e)
  else acc ++ [{ date := o.purchase_date, vol := o.units_sold, ret := getReturnCount o }]

/-- src maturityAnalyzer: group the projection subset by purchase day in
first-occurrence order. -/
def groupDaily (subset : List RawOrderRow) : List DayAgg :=
  subset.foldl upsertDay []

/-- Maturity phase of a cohort day. -/
inductive Phase where
  | rampup
  | mature
  | finalized
deriving DecidableEq, Repr, Inhabited

/-- Projection algorithm tag of a cohort day (`'none'` is spelled
`noneA`, `'linear-blend'` is `linearBlend`, `'gross-up'` is `grossUp`). -/
inductive Algo where
  | linearBlend
  | grossUp
  | noneA
deriving DecidableEq, Repr, Inhabited

/-- src maturityAnalyzer `DailyProjectionRow`. -/
structure DailyProjectionRow where
  date : Int
  age : Int
  phase : Phase
  sales : Nat
  realized : Nat
  currentRate : ℚ
  lagPct : ℚ
  algorithm : Algo
  weight : ℚ
  forecastAdd : ℚ
  projectedTotal : ℚ
  projectedRate : ℚ
deriving DecidableEq, Repr, Inhabited

/-- The phase/algorithm/weight/forecast selection of the
`dailyMap.forEach` loop: `age > P90` is finalized, `age ≥ P50` mature
(both grossed up when the cumulative fraction exceeds 0.01), anything
younger is ramp-up with no projection. -/
def grossUpBranch (d_value p90_value : Nat) (ageDays : Int) (cumPct : ℚ)
    (realized : Nat) : Phase × Algo × ℚ × ℚ :=
  if ageDays > (p90_value : Int) then
    (Phase.finalized, Algo.grossUp, 1,
      if cumPct > 1 / 100 then max 0 ((realized : ℚ) / cumPct - (realized : ℚ)) else 0)
  else if ageDays ≥ (d_value : Int) then
    (Phase.mature, Algo.grossUp, 1,
      if cumPct > 1 / 100 then max 0 ((realized : ℚ) / cumPct - (realized : ℚ)) else 0)
  else
    (Phase.rampup, Algo.noneA, 0, 0)

/-- The body of the `dailyMap.forEach` loop in src maturityAnalyzer
(lines 347-409): classify one cohort day by age against the markers and
compute its forecast fields. -/
def mkDailyRow (dist : List LagBucket) (d_value p90_value : Nat) (sTime : Int)
    (e : DayAgg) : DailyProjectionRow :=
  let ageDays : Int := sTime - e.date
  let cumPct := getCumulativePct dist ageDays
  let realized := e.ret
  let sales := e.vol
  let branch := grossUpBranch d_value p90_value ageDays cumPct realized
  let phase := branch.1
  let weight := branch.2.2.1
  let forecastAdd := branch.2.2.2
  let projectedTotal : ℚ := (realized : ℚ) + forecastAdd
  { date := e.date
    age := ageDays
    phase := phase
    sales := sales
    realized := realized
    currentRate := if 0 < sales then (realized : ℚ) / (sales : ℚ) else 0
    lagPct := cumPct
    algorithm := branch.2.1
    weight := weight
    forecastAdd := forecastAdd
    projectedTotal := projectedTotal
    projectedRate := if 0 < sales then projectedTotal / (sales : ℚ) else 0 }

/-- src maturityAnalyzer `ProjectionBucket` (presentation label strings
omitted). -/
structure ProjectionBucket where
  volume : Nat
  realizedReturns : Nat
  forecastedReturns : ℚ
  totalExpectedReturns : ℚ
  contributionRate : ℚ
deriving DecidableEq, Repr, Inhabited

/-- The three phase buckets (`projBuckets`). -/
structure BucketsAcc where
  finalized : ProjectionBucket
  mature : ProjectionBucket
  rampup : ProjectionBucket
deriving DecidableEq, Repr, Inhabited

/-- All-zero initial buckets. -/
def initBuckets : BucketsAcc :=
  let z : ProjectionBucket :=
    { volume := 0, realizedReturns := 0, forecastedReturns := 0
      totalExpectedReturns := 0, contributionRate := 0 }
  { finalized := z, mature := z, rampup := z }

/-- One bucket update of the `dailyMap.forEach` loop:
`bucket.volume += sales; bucket.realizedReturns += realized;
bucket.forecastedReturns += forecastAdd` on the row's phase bucket. -/
def bumpBucket (acc : BucketsAcc) (row : DailyProjectionRow) : BucketsAcc :=
  match row.phase with
  | Phase.finalized =>
    { acc with finalized :=
        { acc.finalized with
          volume := acc.finalized.volume + row.sales
          realizedReturns := acc.finalized.realizedReturns + row.realized
          forecastedReturns := acc.finalized.forecastedReturns + row.forecastAdd } }
  | Phase.mature =>
    { acc with mature :=
        { acc.mature with
          volume := acc.mature.volume + row.sales
          realizedReturns := acc.mature.realizedReturns + row.realized
          forecastedReturns := acc.mature.forecastedReturns + row.forecastAdd } }
  | Phase.rampup =>
    { acc with rampup :=
        { acc.rampup with
          volume := acc.rampup.volume + row.sales
          realizedReturns := acc.rampup.realizedReturns + row.realized
          forecastedReturns := acc.rampup.forecastedReturns + row.forecastAdd } }

/-- Accumulate the phase buckets over the (unsorted) daily rows. -/
def accumBuckets (rows : List DailyProjectionRow) : BucketsAcc :=
  rows.foldl bumpBucket initBuckets

/-- src maturityAnalyzer `ProjectionData`. -/
structure ProjectionData where
  projectedRate : Option ℚ
  forecastedVolume : ℚ
  buckets : List ProjectionBucket
  baselineRate : ℚ
deriving DecidableEq, Repr, Inhabited

/-- src maturityAnalyzer `DailyTrend`. -/
structure DailyTrend where
  date : Int
  volume : Nat
  returns : Nat
  rate : ℚ
  isPost : Bool
deriving DecidableEq, Repr, Inhabited

/-- The two-state maturity status. -/
inductive MStatus where
  | insufficient
  | projecting
deriving DecidableEq, Repr, Inhabited

/-- The four `metrics` sub-results. -/
structure MetricsGroup where
  pre : MaturityMetrics
  reference : MaturityMetrics
  postMature : MaturityMetrics
  postNominal : MaturityMetrics
deriving DecidableEq, Repr, Inhabited

/-- src maturityAnalyzer `MaturityAnalysisResult` (identity string
`fasin` omitted). -/
structure MaturityAnalysisResult where
  t0 : Int
  s : Int
  d_value : Nat
  p20_value : Nat
  p90_value : Nat
  maturityStatus : MStatus
  confidenceScore : ℚ
  isEvaluable : Bool
  earliestEvalDate : Int
  p90Date : Int
  daysToWait : Int
  baselineRange : DateRange
  distribution : List LagBucket
  metrics : MetricsGroup
  projection : ProjectionData
  dailyProjections : List DailyProjectionRow
  trend : List DailyTrend
deriving DecidableEq, Repr, Inhabited

/-- `data.comparisonSpan || 30`: JS `||` replaces both `undefined` and
the falsy `0` by the default 30. -/
def effSpan (spanOpt : Option Int) : Int :=
  match spanOpt with
  | some k => if k = 0 then 30 else k
  | none => 30

/-- The target-date fold of src maturityAnalyzer (lines 250-273): walk
the projection subset sorted by purchase date ascending, recording the
time at which cumulative volume first reaches half the total
(`p50VolDateTimestamp`) and the last purchase time
(`p100DateTimestamp`). -/
def targetDates (projectionSubset : List RawOrderRow) (t0 : Int) : Int × Int :=
  let totalVol := (projectionSubset.map (·.units_sold)).sum
  if 0 < totalVol then
    let sorted := projectionSubset.insertionSort (fun a b => a.purchase_date ≤ b.purchase_date)
    let final := sorted.foldl
      (fun (st : Nat × Bool × Int × Int) o =>
        let acc := st.1 + o.units_sold
        let t := o.purchase_date
        let hit := !st.2.1 && decide ((acc : ℚ) ≥ (totalVol : ℚ) * (1 / 2))
        ((acc : Nat), st.2.1 || hit, if hit then t else st.2.2.1, t))
      (0, false, t0, t0)
    (final.2.2.1, final.2.2.2)
  else (t0, t0)

/-- The forecast-cohort filter `[t0, t0 + span)`. -/
def projectionSubsetOf (orders : List RawOrderRow) (t0 span : Int) : List RawOrderRow :=
  orders.filter (fun o => decide (t0 ≤ o.purchase_date ∧ o.purchase_date < t0 + span))

/-- The ascending-sorted baseline lag samples of src maturityAnalyzer. -/
def lagsOf (orders : List RawOrderRow) (t0 : Int) : List Nat :=
  (buildLags (preSubsetOf orders t0)).insertionSort (· ≤ ·)

/-- The trend series of src maturityAnalyzer step 8. -/
def buildTrend (orders : List RawOrderRow) (t0 span sTime : Int) : List DailyTrend :=
  let refStart := t0 - span
  let postEnd := t0 + span
  let refSubset := orders.filter (fun o =>
    decide (refStart ≤ o.purchase_date ∧ o.purchase_date < t0))
  let postSubset := projectionSubsetOf orders t0 span
  let trendStart := refStart
  let trendEnd := min postEnd (sTime + 1)
  let daysInTrend := (trendEnd - trendStart).toNat
  let trendMap := groupDaily (refSubset ++ postSubset)
  (((List.range daysInTrend).map (fun i => trendStart + (i : Int))).takeWhile
      (fun t => decide (t ≤ sTime))).map
    (fun t =>
      let stats := (trendMap.find? (fun e => e.date = t)).getD { date := t, vol := 0, ret := 0 }
      { date := t
        volume := stats.vol
        returns := stats.ret
        rate := if 0 < stats.vol then (stats.ret : ℚ) / (stats.vol : ℚ) else 0
        isPost := decide (t ≥ t0) })

/-- The whole successful branch of src `analyzeMaturity`, assembling the
result exactly in source order for a nonempty order list and a present
cutoff. -/
def buildMaturityResult (orders : List RawOrderRow) (t0 span : Int) : MaturityAnalysisResult :=
  let sTime := maxPurchaseTime orders
  let preSubset := preSubsetOf orders t0
  let baselineRange := getRangeInfo preSubset
  let lags := lagsOf orders t0
  let markers := computeMarkers lags
  let p20_value := markers.1
  let d_value := markers.2.1
  let p90_value := markers.2.2
  let distribution := buildHistogram lags p90_value
  let refStart := t0 - span
  let refSubset := orders.filter (fun o =>
    decide (refStart ≤ o.purchase_date ∧ o.purchase_date < t0))
  let projectionSubset := projectionSubsetOf orders t0 span
  let tgt := targetDates projectionSubset t0
  let earliestEvalTime := tgt.1 + (d_value : Int)
  let p90Time := tgt.2 + (p90_value : Int)
  let daysToWait := earliestEvalTime - sTime
  let baselineRate := (calcStats preSubset).rate
  let rowsUnsorted := (groupDaily projectionSubset).map
    (mkDailyRow distribution d_value p90_value sTime)
  let dailyProjections := rowsUnsorted.insertionSort (fun a b => b.age ≤ a.age)
  let acc := accumBuckets rowsUnsorted
  let grandTotalVolume := acc.finalized.volume + acc.mature.volume + acc.rampup.volume
  let reliableVolume := acc.finalized.volume + acc.mature.volume
  let reliableRealized := acc.finalized.realizedReturns + acc.mature.realizedReturns
  let reliableForecasted := acc.finalized.forecastedReturns + acc.mature.forecastedReturns
  let finishBucket := fun (b : ProjectionBucket) =>
    let tot := (b.realizedReturns : ℚ) + b.forecastedReturns
    { b with
      totalExpectedReturns := tot
      contributionRate := if 0 < grandTotalVolume then tot / (grandTotalVolume : ℚ) else 0 }
  let bFinal := finishBucket acc.finalized
  let bMature := finishBucket acc.mature
  let bRampup := finishBucket acc.rampup
  let projectedTotalReturns := (reliableRealized : ℚ) + reliableForecasted
  let projectedRate : Option ℚ :=
    if 0 < reliableVolume then some (projectedTotalReturns / (reliableVolume : ℚ)) else none
  let confidenceScore : ℚ :=
    if 0 < grandTotalVolume then (reliableVolume : ℚ) / (grandTotalVolume : ℚ) else 0
  let maturityStatus := if confidenceScore ≥ 1 / 2 then MStatus.projecting else MStatus.insufficient
  let isEvaluable := decide (confidenceScore ≥ 1 / 2)
  { t0 := t0
    s := sTime
    d_value := d_value
    p20_value := p20_value
    p90_value := p90_value
    maturityStatus := maturityStatus
    confidenceScore := confidenceScore
    isEvaluable := isEvaluable
    earliestEvalDate := earliestEvalTime
    p90Date := p90Time
    daysToWait := daysToWait
    baselineRange := baselineRange
    distribution := distribution
    metrics :=
      { pre := calcStats preSubset
        reference := calcStats refSubset
        postMature := calcStats projectionSubset
        postNominal := calcStats projectionSubset }
    projection :=
      { projectedRate := projectedRate
        forecastedVolume := reliableForecasted
        buckets := [bFinal, bMature, bRampup]
        baselineRate := baselineRate }
    dailyProjections := dailyProjections
    trend := buildTrend orders t0 span sTime }

/-- src `analyzeMaturity`: `null` when the order list is absent or empty
or the cutoff is absent, else the full analysis. -/
def analyzeMaturity (data : AppData) : Option MaturityAnalysisResult :=
  match data.return_order, data.t0Date with
  | some orders, some t0 =>
    if orders.length = 0 then none
    else some (buildMaturityResult orders t0 (effSpan data.comparisonSpan))
  | _, _ => none

/-! ## Fairness contrast engine (src contrastAnalyzer) -/

/-- src contrastAnalyzer `ContrastMetrics`. -/
structure ContrastMetrics where
  sales : Nat
  returns : Nat
  rate : ℚ
deriving DecidableEq, Repr, Inhabited

/-- src contrastAnalyzer `DailyContrastRow`. -/
structure DailyContrastRow where
  date : Int
  matchedDate : Int
  ageLimit : Int
  sales : Nat
  returns : Nat
  refSales : Nat
  refReturns : Nat
deriving DecidableEq, Repr, Inhabited

/-- One velocity-chart point. -/
structure VelocityPoint where
  day : Nat
  beforeRate : ℚ
  afterRate : ℚ
deriving DecidableEq, Repr, Inhabited

/-- src contrastAnalyzer `ContrastResult`. -/
structure ContrastResult where
  hasData : Bool
  t0 : Int
  s : Int
  runDays : Nat
  before : ContrastMetrics
  after : ContrastMetrics
  deltaRate : ℚ
  isImproved : Bool
  velocityChart : List VelocityPoint
  dailyBreakdown : List DailyContrastRow
deriving DecidableEq, Repr, Inhabited

/-- Orders purchased on a given day (the repeated
`data.return_order.filter(o => o.purchase_date === dayStr)`). -/
def ordersOn (orders : List RawOrderRow) (d : Int) : List RawOrderRow :=
  orders.filter (fun o => o.purchase_date = d)

/-- src contrastAnalyzer `getLag`: day lag of a row, `null` without a
return date. -/
def getLag (o : RawOrderRow) : Option Int :=
  o.return_date.map (fun r => r - o.purchase_date)

/-- One iteration of the fairness loop (src contrastAnalyzer lines
124-197): the audit row of day `i`, whose before-side returns are
censored to the day's age limit. -/
def contrastDay (orders : List RawOrderRow) (afterStart beforeStart maxTime : Int)
    (i : Nat) : DailyContrastRow :=
  let currentAfterTime := afterStart + (i : Int)
  let ageLimitDays := maxTime - currentAfterTime
  let afterOrders := ordersOn orders currentAfterTime
  let dayASales := (afterOrders.map (·.units_sold)).sum
  let dayAReturns := (afterOrders.map (fun o =>
    let rCount := getReturnCount o
    if 0 < rCount then rCount else 0)).sum
  let currentBeforeTime := beforeStart + (i : Int)
  let beforeOrders := ordersOn orders currentBeforeTime
  let dayBSales := (beforeOrders.map (·.units_sold)).sum
  let dayBReturns := (beforeOrders.map (fun o =>
    let rCount := getReturnCount o
    if 0 < rCount then
      match getLag o with
      | some lag => if lag ≤ ageLimitDays then rCount else 0
      | none => 0
    else 0)).sum
  { date := currentAfterTime
    matchedDate := currentBeforeTime
    ageLimit := ageLimitDays
    sales := dayASales
    returns := dayAReturns
    refSales := dayBSales
    refReturns := dayBReturns }

/-- The contribution of fairness-loop day `i` to `afterVelocity[d]`:
returns of after-side orders of that day whose own lag is exactly `d`
(the source guards `lag !== null && lag >= 0 && lag < daysCount`). -/
def velAfterDay (orders : List RawOrderRow) (afterStart : Int) (daysCount : Nat)
    (i d : Nat) : Nat :=
  ((ordersOn orders (afterStart + (i : Int))).map (fun o =>
    let rCount := getReturnCount o
    if 0 < rCount then
      match getLag o with
      | some lag =>
        if 0 ≤ lag ∧ lag < (daysCount : Int) ∧ lag = (d : Int) then rCount else 0
      | none => 0
    else 0)).sum

/-- The contribution of fairness-loop day `i` to `beforeVelocity[d]`:
as `velAfterDay` but only inside the censored branch
(`lag ≤ ageLimit(i)` first, then `lag >= 0 && lag < daysCount`). -/
def velBeforeDay (orders : List RawOrderRow) (afterStart beforeStart maxTime : Int)
    (daysCount : Nat) (i d : Nat) : Nat :=
  let ageLimitDays := maxTime - (afterStart + (i : Int))
  ((ordersOn orders (beforeStart + (i : Int))).map (fun o =>
    let rCount := getReturnCount o
    if 0 < rCount then
      match getLag o with
      | some lag =>
        if lag ≤ ageLimitDays then
          if 0 ≤ lag ∧ lag < (daysCount : Int) ∧ lag = (d : Int) then rCount else 0
        else 0
      | none => 0
    else 0)).sum

/-- `afterVelocity[d]` after the whole fairness loop. -/
def afterVelocity (orders : List RawOrderRow) (afterStart : Int) (daysCount : Nat)
    (d : Nat) : Nat :=
  ((List.range daysCount).map (fun i => velAfterDay orders afterStart daysCount i d)).sum

/-- `beforeVelocity[d]` after the whole fairness loop. -/
def beforeVelocity (orders : List RawOrderRow) (afterStart beforeStart maxTime : Int)
    (daysCount : Nat) (d : Nat) : Nat :=
  ((List.range daysCount).map (fun i =>
    velBeforeDay orders afterStart beforeStart maxTime daysCount i d)).sum

/-- Cumulative after-velocity through day `d` (`cumA`). -/
def cumAfterVelocity (orders : List RawOrderRow) (afterStart : Int) (daysCount : Nat)
    (d : Nat) : Nat :=
  ((List.range (d + 1)).map (afterVelocity orders afterStart daysCount)).sum

/-- Cumulative before-velocity through day `d` (`cumB`). -/
def cumBeforeVelocity (orders : List RawOrderRow) (afterStart beforeStart maxTime : Int)
    (daysCount : Nat) (d : Nat) : Nat :=
  ((List.range (d + 1)).map (beforeVelocity orders afterStart beforeStart maxTime daysCount)).sum

/-- The successful branch of src `analyzeContrast` (after both guards),
assembling totals, relative delta, velocity chart and the
date-descending daily breakdown. -/
def buildContrastResult (orders : List RawOrderRow) (t0 : Int) : ContrastResult :=
  let maxTime := maxPurchaseTime orders
  let afterStart := t0 + 1
  let runDaysIndex := maxTime - afterStart
  let daysCount : Nat := (runDaysIndex + 1).toNat
  let beforeStart := t0 - (daysCount : Int)
  let rows := (List.range daysCount).map (contrastDay orders afterStart beforeStart maxTime)
  let afterTotalSales : Nat := (rows.map (·.sales)).sum
  let afterTotalReturns : Nat := (rows.map (·.returns)).sum
  let beforeTotalSales : Nat := (rows.map (·.refSales)).sum
  let beforeTotalReturns : Nat := (rows.map (·.refReturns)).sum
  let beforeRate : ℚ :=
    if 0 < beforeTotalSales then (beforeTotalReturns : ℚ) / (beforeTotalSales : ℚ) else 0
  let afterRate : ℚ :=
    if 0 < afterTotalSales then (afterTotalReturns : ℚ) / (afterTotalSales : ℚ) else 0
  let deltaRate : ℚ :=
    if 0 < beforeRate then (afterRate - beforeRate) / beforeRate
    else if 0 < afterRate then 1 else 0
  let velocityChart := (List.range daysCount).map (fun d =>
    { day := d
      beforeRate :=
        if 0 < beforeTotalSales then
          (cumBeforeVelocity orders afterStart beforeStart maxTime daysCount d : ℚ) /
            (beforeTotalSales : ℚ)
        else 0
      afterRate :=
        if 0 < afterTotalSales then
          (cumAfterVelocity orders afterStart daysCount d : ℚ) / (afterTotalSales : ℚ)
        else 0 })
  { hasData := true
    t0 := t0
    s := maxTime
    runDays := daysCount
    before := { sales := beforeTotalSales, returns := beforeTotalReturns, rate := beforeRate }
    after := { sales := afterTotalSales, returns := afterTotalReturns, rate := afterRate }
    deltaRate := deltaRate
    isImproved := decide (deltaRate < 0)
    velocityChart := velocityChart
    dailyBreakdown := rows.insertionSort (fun a b => b.date ≤ a.date) }

/-- src `analyzeContrast`: `null` for a missing or empty order list or a
missing cutoff, and `null` again when the maximum purchase time is at
most the cutoff (no strict after-window). -/
def analyzeContrast (data : AppData) : Option ContrastResult :=
  match data.return_order, data.t0Date with
  | some orders, some t0 =>
    if orders.length = 0 then none
    else if maxPurchaseTime orders ≤ t0 then none
    else some (buildContrastResult orders t0)
  | _, _ => none

/-! ## Helper lemmas -/

theorem sum_map_ite_filter {α : Type} (l : List α) (p : α → Prop) [DecidablePred p]
    (f : α → Nat) :
    (l.map (fun o => if p o then f o else 0)).sum =
      ((l.filter (fun o => decide (p o))).map f).sum := by
  induction l with
  | nil => rfl
  | cons a t ih => by_cases h : p a <;> simp [h, ih]

theorem filter_filter_and {α : Type} (l : List α) (p q : α → Bool) :
    (l.filter q).filter p = l.filter (fun a => q a && p a) := by
  induction l with
  | nil => rfl
  | cons a t ih => cases hq : q a <;> cases hp : p a <;> simp [hq, hp, ih]

/-- The per-order contribution to the lag sample array. -/
def lagContribution (o : RawOrderRow) : List Nat :=
  match o.return_date with
  | some r =>
    if 0 < getReturnCount o then
      if 0 ≤ (r - o.purchase_date : Int) then
        List.replicate (getReturnCount o) (r - o.purchase_date).toNat
      else []
    else []
  | none => []

theorem buildLags_foldl_general (l : List RawOrderRow) (init : List Nat) :
    l.foldl (fun acc o =>
      let rCount := getReturnCount o
      match o.return_date with
      | some r =>
        if 0 < rCount then
          let diffDays : Int := r - o.purchase_date
          if 0 ≤ diffDays then acc ++ List.replicate rCount diffDays.toNat else acc
        else acc
      | none => acc) init = init ++ l.flatMap lagContribution := by
  induction l generalizing init with
  | nil => simp
  | cons a t ih =>
    rw [List.foldl_cons, ih, List.flatMap_cons]
    rcases hr : a.return_date with _ | r
    · simp [lagContribution, hr]
    · by_cases hc : 0 < getReturnCount a
      · by_cases hd : (0 : Int) ≤ r - a.purchase_date
        · simp [lagContribution, hr, hc, hd]
        · simp [lagContribution, hr, hc, hd]
      · simp [lagContribution, hr, hc]

theorem buildLags_eq_flatMap (l : List RawOrderRow) :
    buildLags l = l.flatMap lagContribution := by
  have h := buildLags_foldl_general l []
  simpa [buildLags] using h

theorem count_flatMap_sum {α : Type} (l : List α) (g : α → List Nat) (v : Nat) :
    (l.flatMap g).count v = (l.map (fun o => (g o).count v)).sum := by
  induction l with
  | nil => rfl
  | cons a t ih => simp [List.flatMap_cons, List.count_append, ih]

theorem count_lagContribution (o : RawOrderRow) (v : Nat) :
    (lagContribution o).count v =
      if 0 < getReturnCount o ∧ getLag o = some (v : Int) then getReturnCount o else 0 := by
  rcases hr : o.return_date with _ | r
  · simp [lagContribution, getLag, hr]
  · by_cases hc : 0 < getReturnCount o
    · by_cases hd : (0 : Int) ≤ r - o.purchase_date
      · simp only [lagContribution, hr, if_pos hc, if_pos hd, List.count_replicate,
          getLag, Option.map_some', Option.some.injEq, beq_iff_eq]
        rcases eq_or_ne (r - o.purchase_date) (v : Int) with hv | hv
        · have hv2 : (r - o.purchase_date).toNat = v := by omega
          rw [if_pos hv2, if_pos ⟨hc, hv⟩]
        · have hv2 : ¬ ((r - o.purchase_date).toNat = v) := by omega
          rw [if_neg hv2, if_neg (fun hh => hv hh.2)]
      · have hv : ¬ (r - o.purchase_date) = (v : Int) := by omega
        simp only [lagContribution, hr, if_pos hc, if_neg hd, List.count_nil,
          getLag, Option.map_some', Option.some.injEq]
        rw [if_neg (fun hh => hv hh.2)]
    · simp only [lagContribution, hr, if_neg hc, List.count_nil,
        getLag, Option.map_some', Option.some.injEq]
      rw [if_neg (fun hh => hc hh.1)]

/-! ## Claim theorems -/

/-- Claim C8: for every non-empty baseline sample array, the markers
produced after clamping satisfy `P20 ≤ P50 ≤ P90`, with `P50 ∈ [5, 60]`,
`P90 ∈ [P50+1, 90]`, and `P20 ≥ 1`. -/
theorem markers_clamped_bounds (lags : List Nat) (h : lags ≠ []) :
    (computeMarkers lags).1 ≤ (computeMarkers lags).2.1 ∧
    (computeMarkers lags).2.1 ≤ (computeMarkers lags).2.2 ∧
    5 ≤ (computeMarkers lags).2.1 ∧ (computeMarkers lags).2.1 ≤ 60 ∧
    (computeMarkers lags).2.1 + 1 ≤ (computeMarkers lags).2.2 ∧
    (computeMarkers lags).2.2 ≤ 90 ∧
    1 ≤ (computeMarkers lags).1 := by
  have hn : 0 < lags.length := List.length_pos.mpr h
  simp only [computeMarkers, if_pos hn]
  split_ifs <;> omega

/-- Witness for C8 at the spec Scenario 1 sample. -/
theorem markers_clamped_bounds_witness :
    (computeMarkers [2, 2, 5, 5, 5, 8, 10, 12, 20]).1 ≤
        (computeMarkers [2, 2, 5, 5, 5, 8, 10, 12, 20]).2.1 ∧
    (computeMarkers [2, 2, 5, 5, 5, 8, 10, 12, 20]).2.1 ≤
        (computeMarkers [2, 2, 5, 5, 5, 8, 10, 12, 20]).2.2 ∧
    5 ≤ (computeMarkers [2, 2, 5, 5, 5, 8, 10, 12, 20]).2.1 ∧
    (computeMarkers [2, 2, 5, 5, 5, 8, 10, 12, 20]).2.1 ≤ 60 ∧
    (computeMarkers [2, 2, 5, 5, 5, 8, 10, 12, 20]).2.1 + 1 ≤
        (computeMarkers [2, 2, 5, 5, 5, 8, 10, 12, 20]).2.2 ∧
    (computeMarkers [2, 2, 5, 5, 5, 8, 10, 12, 20]).2.2 ≤ 90 ∧
    1 ≤ (computeMarkers [2, 2, 5, 5, 5, 8, 10, 12, 20]).1 :=
  markers_clamped_bounds [2, 2, 5, 5, 5, 8, 10, 12, 20] (by decide)

/-- The marker formulas exactly as the C2 claim words them: the `P50`
appearing in the `max (P50 + 5) sample[i90]` step is the
already-clamped `P50`. -/
def markersSpecClamped (s : List Nat) : Nat × Nat × Nat :=
  let n := s.length
  let p50 := max 5 (min (s.getD (n / 2) 0) 60)
  let p20a := min (max 1 (s.getD (n / 5) 0)) (p50 - 1)
  let p20 := if p20a < 1 then 1 else p20a
  let p90a := max (p50 + 5) (s.getD (n * 9 / 10) 0)
  let p90 := max (p50 + 1) (min p90a 90)
  (p20, p50, p90)

/-- The amended marker formulas: identical to `markersSpecClamped`
except that the `max (· + 5)` step uses the raw `sample[n/2]` value (the
source clamps `d_value` only afterwards), while the final
`[P50+1, 90]` clamp uses the clamped `P50`. -/
def markersSpecRaw (s : List Nat) : Nat × Nat × Nat :=
  let n := s.length
  let p50 := max 5 (min (s.getD (n / 2) 0) 60)
  let p20a := min (max 1 (s.getD (n / 5) 0)) (p50 - 1)
  let p20 := if p20a < 1 then 1 else p20a
  let p90a := max (s.getD (n / 2) 0 + 5) (s.getD (n * 9 / 10) 0)
  let p90 := max (p50 + 1) (min p90a 90)
  (p20, p50, p90)

/-- Counterexample for claim C2: on the non-empty ascending-sorted
sample `[2]` the code yields `P90 = 7` (the `+5` headroom is applied to
the raw `P50 = 2`), while the claimed formula with the clamped `P50 = 5`
yields `P90 = 10`. -/
theorem markers_claimC2_false_on_single2 :
    List.Sorted (· ≤ ·) [2] ∧ ([2] : List Nat) ≠ [] ∧
    computeMarkers [2] = (2, 5, 7) ∧ markersSpecClamped [2] = (2, 5, 10) ∧
    computeMarkers [2] ≠ markersSpecClamped [2] := by
  refine ⟨by decide, by decide, by decide, by decide, by decide⟩

/-- Amended claim C2: for every non-empty ascending-sorted sample array
the code's markers equal the claimed formulas with the raw `sample[n/2]`
feeding the `max (· + 5)` step of `P90` (all other occurrences of `P50`
are the clamped value). -/
theorem markers_match_amended_formula (s : List Nat) (h1 : s ≠ [])
    (_h2 : List.Sorted (· ≤ ·) s) :
    computeMarkers s = markersSpecRaw s := by
  have hn : 0 < s.length := List.length_pos.mpr h1
  simp [computeMarkers, markersSpecRaw, if_pos hn]

/-- Witness for the amended C2 at the spec Scenario 1 sample, where the
markers come out as `P20 = 2`, `P50 = 5`, `P90 = 20`. -/
theorem markers_match_amended_formula_witness :
    computeMarkers [2, 2, 5, 5, 5, 8, 10, 12, 20] =
      markersSpecRaw [2, 2, 5, 5, 5, 8, 10, 12, 20] ∧
    computeMarkers [2, 2, 5, 5, 5, 8, 10, 12, 20] = (2, 5, 20) :=
  ⟨markers_match_amended_formula [2, 2, 5, 5, 5, 8, 10, 12, 20] (by decide) (by decide),
   by decide⟩

/-- Claim C1 (amended): with at least one order row and a cutoff such
that the dataset's maximum purchase time is on or before the cutoff, the
contrast engine returns `none` (the source returns `null`), not a
`hasData = false` result and not an exception. -/
theorem analyzeContrast_none_of_noAfterWindow (orders : List RawOrderRow) (t0 : Int)
    (spanOpt : Option Int) (h1 : orders ≠ []) (h2 : maxPurchaseTime orders ≤ t0) :
    analyzeContrast
      { return_order := some orders, t0Date := some t0, comparisonSpan := spanOpt } = none := by
  have := h1
  simp only [analyzeContrast]
  split_ifs <;> rfl

/-- The C1 scenario input: one order purchased on 2024-03-01 (epoch day
19783), cutoff 2024-03-01, so `S = T0`. -/
def c1Data : AppData :=
  { return_order := some
      [{ purchase_date := 19783, return_date := none, units_sold := 1, units_returned := none }]
    t0Date := some 19783
    comparisonSpan := none }

/-- Witness for the amended C1 at the Scenario 4 input. -/
theorem analyzeContrast_none_of_noAfterWindow_witness :
    analyzeContrast c1Data = none :=
  analyzeContrast_none_of_noAfterWindow
    [{ purchase_date := 19783, return_date := none, units_sold := 1, units_returned := none }]
    19783 none (by decide) (by decide)

/-- Counterexample for claim C1 as stated: at the Scenario 4 input
(cutoff 2024-03-01, latest purchase 2024-03-01) the contrast engine does
not return a result whose `hasData` field is `false`; it returns no
result at all (`null` in the source). -/
theorem analyzeContrast_claimC1_counterexample :
    ¬ ∃ r : ContrastResult, analyzeContrast c1Data = some r ∧ r.hasData = false := by
  intro hx
  rcases hx with ⟨r, hr, _⟩
  have hnone : analyzeContrast c1Data = none := by decide
  rw [hnone] at hr
  exact Option.noConfusion hr

/-! ### Inversion of the two entry points -/

theorem analyzeMaturity_some_inv (data : AppData) (r : MaturityAnalysisResult)
    (h : analyzeMaturity data = some r) :
    ∃ orders t0, data.return_order = some orders ∧ data.t0Date = some t0 ∧
      orders ≠ [] ∧ r = buildMaturityResult orders t0 (effSpan data.comparisonSpan) := by
  rcases hor : data.return_order with _ | orders
  · simp only [analyzeMaturity, hor] at h
    exact Option.noConfusion h
  · rcases ht : data.t0Date with _ | t0
    · simp only [analyzeMaturity, hor, ht] at h
      exact Option.noConfusion h
    · simp only [analyzeMaturity, hor, ht] at h
      split_ifs at h with hlen
      refine ⟨orders, t0, rfl, rfl, ?_, (Option.some.inj h).symm⟩
      intro hnil
      exact hlen (by simp [hnil])

theorem analyzeContrast_some_inv (data : AppData) (r : ContrastResult)
    (h : analyzeContrast data = some r) :
    ∃ orders t0, data.return_order = some orders ∧ data.t0Date = some t0 ∧
      orders ≠ [] ∧ t0 < maxPurchaseTime orders ∧ r = buildContrastResult orders t0 := by
  rcases hor : data.return_order with _ | orders
  · simp only [analyzeContrast, hor] at h
    exact Option.noConfusion h
  · rcases ht : data.t0Date with _ | t0
    · simp only [analyzeContrast, hor, ht] at h
      exact Option.noConfusion h
    · simp only [analyzeContrast, hor, ht] at h
      split_ifs at h with hlen hmax
      refine ⟨orders, t0, rfl, rfl, ?_, by omega, (Option.some.inj h).symm⟩
      intro hnil
      exact hlen (by simp [hnil])

/-! ### Definitional field lemmas for the assembled results -/

theorem buildMaturityResult_p20 (o : List RawOrderRow) (t s : Int) :
    (buildMaturityResult o t s).p20_value = (computeMarkers (lagsOf o t)).1 := rfl

theorem buildMaturityResult_d (o : List RawOrderRow) (t s : Int) :
    (buildMaturityResult o t s).d_value = (computeMarkers (lagsOf o t)).2.1 := rfl

theorem buildMaturityResult_p90 (o : List RawOrderRow) (t s : Int) :
    (buildMaturityResult o t s).p90_value = (computeMarkers (lagsOf o t)).2.2 := rfl

theorem buildMaturityResult_distribution (o : List RawOrderRow) (t s : Int) :
    (buildMaturityResult o t s).distribution =
      buildHistogram (lagsOf o t) (computeMarkers (lagsOf o t)).2.2 := rfl

/-- The unsorted daily projection rows, one per cohort purchase day. -/
def dailyRowsUnsortedOf (o : List RawOrderRow) (t s : Int) : List DailyProjectionRow :=
  (groupDaily (projectionSubsetOf o t s)).map
    (mkDailyRow (buildHistogram (lagsOf o t) (computeMarkers (lagsOf o t)).2.2)
      (computeMarkers (lagsOf o t)).2.1 (computeMarkers (lagsOf o t)).2.2
      (maxPurchaseTime o))

theorem buildMaturityResult_dailyProjections (o : List RawOrderRow) (t s : Int) :
    (buildMaturityResult o t s).dailyProjections =
      (dailyRowsUnsortedOf o t s).insertionSort (fun a b => b.age ≤ a.age) := rfl

/-- Claim C6: with zero baseline lag samples the builder falls back to
the fixed default markers `P20 = 4`, `P50 = 14`, `P90 = 30` and an empty
histogram, and every cumulative-fraction lookup on that histogram
returns 1 for any age. -/
theorem maturity_defaults_of_no_baseline_samples (orders : List RawOrderRow) (t0 : Int)
    (spanOpt : Option Int) (r : MaturityAnalysisResult)
    (h : analyzeMaturity
      { return_order := some orders, t0Date := some t0, comparisonSpan := spanOpt } = some r)
    (hz : buildLags (preSubsetOf orders t0) = []) :
    r.p20_value = 4 ∧ r.d_value = 14 ∧ r.p90_value = 30 ∧ r.distribution = [] ∧
    (∀ day : Int, getCumulativePct r.distribution day = 1) := by
  have hr : r = buildMaturityResult orders t0 (effSpan spanOpt) := by
    simp only [analyzeMaturity] at h
    split_ifs at h with hlen
    exact (Option.some.inj h).symm
  subst hr
  have hlags : lagsOf orders t0 = [] := by
    rw [lagsOf, hz]
    rfl
  refine ⟨?_, ?_, ?_, ?_, ?_⟩
  · rw [buildMaturityResult_p20, hlags]
    decide
  · rw [buildMaturityResult_d, hlags]
    decide
  · rw [buildMaturityResult_p90, hlags]
    decide
  · rw [buildMaturityResult_distribution, hlags]
    rfl
  · intro day
    rw [buildMaturityResult_distribution, hlags]
    rfl

/-- Claim C7: the multiset of baseline lag samples is exactly, for each
order in the baseline window with positive effective return count and a
return date, its day lag repeated once per effective-returned unit —
counted only when the lag is nonnegative (`getLag o = some v` with
`v : Nat` coerced), with no contribution from any other order; and the
Scenario 3 order (3 sold, `units_returned = 0`, purchased 2024-01-01,
returned 2024-02-05) contributes the lag 35 exactly three times. -/
theorem lag_sample_multiset_spec :
    (∀ (orders : List RawOrderRow) (t0 : Int) (v : Nat),
      (lagsOf orders t0).count v =
        ((orders.filter (fun o =>
            decide ((t0 - 60 ≤ o.purchase_date ∧ o.purchase_date < t0) ∧
              0 < getReturnCount o ∧ getLag o = some (v : Int)))).map getReturnCount).sum) ∧
    buildLags (preSubsetOf
      [{ purchase_date := 19723, return_date := some 19758, units_sold := 3,
         units_returned := some 0 }] 19753) = [35, 35, 35] := by
  constructor
  · intro orders t0 v
    have h1 : (lagsOf orders t0).count v = (buildLags (preSubsetOf orders t0)).count v :=
      (List.perm_insertionSort _ _).count_eq v
    rw [h1, buildLags_eq_flatMap, count_flatMap_sum]
    have h2 : ∀ o ∈ preSubsetOf orders t0,
        (lagContribution o).count v =
          (fun o => if 0 < getReturnCount o ∧ getLag o = some (v : Int)
            then getReturnCount o else 0) o :=
      fun o _ => count_lagContribution o v
    rw [List.map_congr_left h2, sum_map_ite_filter, preSubsetOf, filter_filter_and]
    have h3 : (fun a : RawOrderRow =>
        decide (t0 - 60 ≤ a.purchase_date ∧ a.purchase_date < t0) &&
          decide (0 < getReturnCount a ∧ getLag a = some (v : Int))) =
        (fun o : RawOrderRow => decide ((t0 - 60 ≤ o.purchase_date ∧ o.purchase_date < t0) ∧
          0 < getReturnCount o ∧ getLag o = some (v : Int))) := by
      funext o
      simp [Bool.decide_and]
    rw [h3]
  · decide

/-- The C6 scenario input: a single order purchased on the cutoff day,
whose baseline window is therefore empty. -/
def c6Data : AppData :=
  { return_order := some
      [{ purchase_date := 100, return_date := none, units_sold := 1, units_returned := none }]
    t0Date := some 100
    comparisonSpan := none }

/-- The C6 scenario result. -/
def c6Res : MaturityAnalysisResult := (analyzeMaturity c6Data).getD default

/-- Witness for C6 at the concrete empty-baseline input. -/
theorem maturity_defaults_of_no_baseline_samples_witness :
    c6Res.p20_value = 4 ∧ c6Res.d_value = 14 ∧ c6Res.p90_value = 30 ∧
    c6Res.distribution = [] ∧
    (∀ day : Int, getCumulativePct c6Res.distribution day = 1) :=
  maturity_defaults_of_no_baseline_samples
    [{ purchase_date := 100, return_date := none, units_sold := 1, units_returned := none }]
    100 none c6Res rfl (by decide)

/-! ### Contrast engine: named intermediates and definitional field lemmas -/

/-- `daysCount` of the fairness loop. -/
def contrastDaysCountOf (orders : List RawOrderRow) (t0 : Int) : Nat :=
  ((maxPurchaseTime orders - (t0 + 1)) + 1).toNat

/-- The unsorted per-day audit rows of the fairness loop. -/
def contrastRowsOf (orders : List RawOrderRow) (t0 : Int) : List DailyContrastRow :=
  (List.range (contrastDaysCountOf orders t0)).map
    (contrastDay orders (t0 + 1) (t0 - (contrastDaysCountOf orders t0 : Int))
      (maxPurchaseTime orders))

/-- One velocity-chart point, with both cumulative-velocity rates
guarded by the respective total sales. -/
def velocityPointOf (orders : List RawOrderRow) (t0 : Int) (d : Nat) : VelocityPoint :=
  let maxTime := maxPurchaseTime orders
  let afterStart := t0 + 1
  let daysCount := contrastDaysCountOf orders t0
  let beforeStart := t0 - (daysCount : Int)
  let beforeTotalSales : Nat := ((contrastRowsOf orders t0).map (·.refSales)).sum
  let afterTotalSales : Nat := ((contrastRowsOf orders t0).map (·.sales)).sum
  { day := d
    beforeRate :=
      if 0 < beforeTotalSales then
        (cumBeforeVelocity orders afterStart beforeStart maxTime daysCount d : ℚ) /
          (beforeTotalSales : ℚ)
      else 0
    afterRate :=
      if 0 < afterTotalSales then
        (cumAfterVelocity orders afterStart daysCount d : ℚ) / (afterTotalSales : ℚ)
      else 0 }

theorem buildContrastResult_runDays (o : List RawOrderRow) (t : Int) :
    (buildContrastResult o t).runDays = contrastDaysCountOf o t := rfl

theorem buildContrastResult_s (o : List RawOrderRow) (t : Int) :
    (buildContrastResult o t).s = maxPurchaseTime o := rfl

theorem buildContrastResult_t0 (o : List RawOrderRow) (t : Int) :
    (buildContrastResult o t).t0 = t := rfl

theorem buildContrastResult_dailyBreakdown (o : List RawOrderRow) (t : Int) :
    (buildContrastResult o t).dailyBreakdown =
      (contrastRowsOf o t).insertionSort (fun a b => b.date ≤ a.date) := rfl

theorem buildContrastResult_after_sales (o : List RawOrderRow) (t : Int) :
    (buildContrastResult o t).after.sales = ((contrastRowsOf o t).map (·.sales)).sum := rfl

theorem buildContrastResult_after_returns (o : List RawOrderRow) (t : Int) :
    (buildContrastResult o t).after.returns = ((contrastRowsOf o t).map (·.returns)).sum := rfl

theorem buildContrastResult_before_sales (o : List RawOrderRow) (t : Int) :
    (buildContrastResult o t).before.sales = ((contrastRowsOf o t).map (·.refSales)).sum := rfl

theorem buildContrastResult_before_returns (o : List RawOrderRow) (t : Int) :
    (buildContrastResult o t).before.returns =
      ((contrastRowsOf o t).map (·.refReturns)).sum := rfl

theorem buildContrastResult_after_rate (o : List RawOrderRow) (t : Int) :
    (buildContrastResult o t).after.rate =
      (if 0 < (buildContrastResult o t).after.sales then
        ((buildContrastResult o t).after.returns : ℚ) /
          ((buildContrastResult o t).after.sales : ℚ)
      else 0) := rfl

theorem buildContrastResult_before_rate (o : List RawOrderRow) (t : Int) :
    (buildContrastResult o t).before.rate =
      (if 0 < (buildContrastResult o t).before.sales then
        ((buildContrastResult o t).before.returns : ℚ) /
          ((buildContrastResult o t).before.sales : ℚ)
      else 0) := rfl

theorem buildContrastResult_velocityChart (o : List RawOrderRow) (t : Int) :
    (buildContrastResult o t).velocityChart =
      (List.range (contrastDaysCountOf o t)).map (velocityPointOf o t) := by
  unfold buildContrastResult velocityPointOf contrastRowsOf contrastDaysCountOf
  rfl

/-- Claim C10: the daily breakdown has exactly `runDays` rows, and the
aggregate scorecard is the exact column-wise sum of the audit rows. -/
theorem contrast_totals_match_breakdown (data : AppData) (r : ContrastResult)
    (h : analyzeContrast data = some r) :
    r.dailyBreakdown.length = r.runDays ∧
    r.after.sales = (r.dailyBreakdown.map (·.sales)).sum ∧
    r.after.returns = (r.dailyBreakdown.map (·.returns)).sum ∧
    r.before.sales = (r.dailyBreakdown.map (·.refSales)).sum ∧
    r.before.returns = (r.dailyBreakdown.map (·.refReturns)).sum := by
  obtain ⟨orders, t0, hor, ht, hne, hmax, hr⟩ := analyzeContrast_some_inv data r h
  subst hr
  have hperm :
      List.Perm ((contrastRowsOf orders t0).insertionSort (fun a b => b.date ≤ a.date))
        (contrastRowsOf orders t0) :=
    List.perm_insertionSort _ _
  refine ⟨?_, ?_, ?_, ?_, ?_⟩
  · rw [buildContrastResult_dailyBreakdown, buildContrastResult_runDays, hperm.length_eq,
      contrastRowsOf, List.length_map, List.length_range]
  · rw [buildContrastResult_dailyBreakdown, buildContrastResult_after_sales,
      (hperm.map (·.sales)).sum_eq]
  · rw [buildContrastResult_dailyBreakdown, buildContrastResult_after_returns,
      (hperm.map (·.returns)).sum_eq]
  · rw [buildContrastResult_dailyBreakdown, buildContrastResult_before_sales,
      (hperm.map (·.refSales)).sum_eq]
  · rw [buildContrastResult_dailyBreakdown, buildContrastResult_before_returns,
      (hperm.map (·.refReturns)).sum_eq]

/-- The C10/C4 witness orders: cutoff 100, latest purchase 103, one
before-window return beyond its day's age limit. -/
def c4Orders : List RawOrderRow :=
  [{ purchase_date := 103, return_date := none, units_sold := 1, units_returned := none },
   { purchase_date := 97, return_date := some 100, units_sold := 1, units_returned := some 1 },
   { purchase_date := 98, return_date := some 99, units_sold := 2, units_returned := none },
   { purchase_date := 101, return_date := some 102, units_sold := 2, units_returned := some 1 }]

/-- The C10/C4 witness input. -/
def c4Data : AppData :=
  { return_order := some c4Orders
    t0Date := some 100
    comparisonSpan := none }

/-- The C10/C4 witness result. -/
def c4Res : ContrastResult := (analyzeContrast c4Data).getD default

/-- Witness for C10 at the concrete three-day contrast input. -/
theorem contrast_totals_match_breakdown_witness :
    c4Res.dailyBreakdown.length = c4Res.runDays ∧
    c4Res.after.sales = (c4Res.dailyBreakdown.map (·.sales)).sum ∧
    c4Res.after.returns = (c4Res.dailyBreakdown.map (·.returns)).sum ∧
    c4Res.before.sales = (c4Res.dailyBreakdown.map (·.refSales)).sum ∧
    c4Res.before.returns = (c4Res.dailyBreakdown.map (·.refReturns)).sum :=
  contrast_totals_match_breakdown c4Data c4Res rfl

/-! ### Claim C4: retroactive censoring of the before-window -/

theorem sum_map_iteB_filter {α : Type} (l : List α) (p : α → Bool) (f : α → Nat) :
    (l.map (fun o => if p o then f o else 0)).sum = ((l.filter p).map f).sum := by
  induction l with
  | nil => rfl
  | cons a t ih => cases h : p a <;> simp [h, ih]

/-- The before-side loop body counts a row's returns exactly when the
effective count is positive and the row's own lag exists and is within
the age limit. -/
theorem censor_body_eq (L : Int) (o : RawOrderRow) :
    (if 0 < getReturnCount o then
       match getLag o with
       | some lag => if lag ≤ L then getReturnCount o else 0
       | none => 0
     else 0) =
    (if decide (0 < getReturnCount o) && (getLag o).any (fun l => decide (l ≤ L)) then
      getReturnCount o else 0) := by
  by_cases hc : 0 < getReturnCount o
  · rcases hl : getLag o with _ | l
    · simp [hc, hl, Option.any]
    · by_cases hle : l ≤ L <;> simp [hc, hl, hle, Option.any]
  · simp [hc]

theorem contrastDay_date (orders : List RawOrderRow) (a b m : Int) (i : Nat) :
    (contrastDay orders a b m i).date = a + (i : Int) := rfl

theorem contrastDay_matchedDate (orders : List RawOrderRow) (a b m : Int) (i : Nat) :
    (contrastDay orders a b m i).matchedDate = b + (i : Int) := rfl

theorem contrastDay_ageLimit (orders : List RawOrderRow) (a b m : Int) (i : Nat) :
    (contrastDay orders a b m i).ageLimit = m - (a + (i : Int)) := rfl

theorem contrastDay_refReturns (orders : List RawOrderRow) (a b m : Int) (i : Nat) :
    (contrastDay orders a b m i).refReturns =
      ((ordersOn orders (b + (i : Int))).map (fun o =>
        if 0 < getReturnCount o then
          match getLag o with
          | some lag => if lag ≤ m - (a + (i : Int)) then getReturnCount o else 0
          | none => 0
        else 0)).sum := rfl

/-- Claim C4: every daily-breakdown row's age limit is exactly
`S - after-day`, and its before-side returns count only the returns of
orders purchased on the mirrored day whose own lag is at most that age
limit — a return with lag beyond the limit never contributes. -/
theorem contrast_before_censoring (data : AppData) (orders : List RawOrderRow)
    (r : ContrastResult) (hor : data.return_order = some orders)
    (h : analyzeContrast data = some r) (row : DailyContrastRow)
    (hrow : row ∈ r.dailyBreakdown) :
    row.ageLimit = r.s - row.date ∧
    row.refReturns = (((ordersOn orders row.matchedDate).filter (fun o =>
        decide (0 < getReturnCount o) &&
          (getLag o).any (fun l => decide (l ≤ row.ageLimit)))).map getReturnCount).sum ∧
    r.before.returns = (r.dailyBreakdown.map (·.refReturns)).sum := by
  obtain ⟨orders2, t0, hor2, ht, hne, hmax, hr⟩ := analyzeContrast_some_inv data r h
  have ho : orders = orders2 := by
    rw [hor] at hor2
    exact Option.some.inj hor2
  subst ho
  subst hr
  have hperm :
      List.Perm ((contrastRowsOf orders t0).insertionSort (fun a b => b.date ≤ a.date))
        (contrastRowsOf orders t0) :=
    List.perm_insertionSort _ _
  rw [buildContrastResult_dailyBreakdown] at hrow
  have hrow2 : row ∈ contrastRowsOf orders t0 := hperm.mem_iff.mp hrow
  obtain ⟨i, hi, hrowEq⟩ := List.mem_map.mp hrow2
  refine ⟨?_, ?_, ?_⟩
  · rw [← hrowEq, buildContrastResult_s, contrastDay_ageLimit, contrastDay_date]
  · rw [← hrowEq, contrastDay_refReturns, contrastDay_matchedDate, contrastDay_ageLimit]
    have hpt : ∀ o ∈ ordersOn orders (t0 - (contrastDaysCountOf orders t0 : Int) + (i : Int)),
        (fun o => if 0 < getReturnCount o then
          match getLag o with
          | some lag =>
            if lag ≤ maxPurchaseTime orders - (t0 + 1 + (i : Int)) then getReturnCount o else 0
          | none => 0
        else 0) o =
        (fun o => if decide (0 < getReturnCount o) &&
            (getLag o).any (fun l =>
              decide (l ≤ maxPurchaseTime orders - (t0 + 1 + (i : Int)))) then
          getReturnCount o else 0) o :=
      fun o _ => censor_body_eq _ o
    rw [List.map_congr_left hpt, sum_map_iteB_filter]
  · rw [buildContrastResult_dailyBreakdown, buildContrastResult_before_returns,
      (hperm.map (·.refReturns)).sum_eq]

/-- The first (most recent) audit row of the C4 witness run. -/
def c4Row : DailyContrastRow := c4Res.dailyBreakdown.headD default

/-- Witness for C4 at the concrete three-day contrast input. -/
theorem contrast_before_censoring_witness :
    c4Row.ageLimit = c4Res.s - c4Row.date ∧
    c4Row.refReturns = (((ordersOn c4Orders c4Row.matchedDate).filter (fun o =>
        decide (0 < getReturnCount o) &&
          (getLag o).any (fun l => decide (l ≤ c4Row.ageLimit)))).map getReturnCount).sum ∧
    c4Res.before.returns = (c4Res.dailyBreakdown.map (·.refReturns)).sum :=
  contrast_before_censoring c4Data c4Orders c4Res rfl rfl c4Row (by decide)

/-! ### Claim C3: phase classification and gross-up per cohort day -/

theorem computeMarkers_d_le_p90 (lags : List Nat) :
    (computeMarkers lags).2.1 ≤ (computeMarkers lags).2.2 := by
  simp only [computeMarkers]
  split_ifs <;> omega

theorem grossUpBranch_spec (d p90 : Nat) (age : Int) (c : ℚ) (n : Nat) (hdp : d ≤ p90) :
    (((grossUpBranch d p90 age c n).1 = Phase.mature ∨
        (grossUpBranch d p90 age c n).1 = Phase.finalized) →
      (grossUpBranch d p90 age c n).2.2.2 =
        (if c > 1 / 100 then max 0 ((n : ℚ) / c - (n : ℚ)) else 0)) ∧
    ((grossUpBranch d p90 age c n).1 = Phase.rampup →
      (grossUpBranch d p90 age c n).2.2.2 = 0) ∧
    ((grossUpBranch d p90 age c n).1 = Phase.rampup ↔ age < (d : Int)) ∧
    ((grossUpBranch d p90 age c n).1 = Phase.mature ↔
      ((d : Int) ≤ age ∧ age ≤ (p90 : Int))) ∧
    ((grossUpBranch d p90 age c n).1 = Phase.finalized ↔ (p90 : Int) < age) ∧
    0 ≤ (grossUpBranch d p90 age c n).2.2.2 := by
  unfold grossUpBranch
  by_cases h1 : age > (p90 : Int)
  · rw [if_pos h1]
    refine ⟨fun _ => rfl, ?_, ?_, ?_, ?_, ?_⟩
    · intro hph
      exact absurd hph (by simp)
    · exact iff_of_false (by simp) (by omega)
    · exact iff_of_false (by simp) (by omega)
    · exact iff_of_true rfl (by omega)
    · show (0 : ℚ) ≤ if c > 1 / 100 then max 0 ((n : ℚ) / c - (n : ℚ)) else 0
      split_ifs with hc
      · exact le_max_left 0 _
      · exact le_refl 0
  · rw [if_neg h1]
    by_cases h2 : age ≥ (d : Int)
    · rw [if_pos h2]
      refine ⟨fun _ => rfl, ?_, ?_, ?_, ?_, ?_⟩
      · intro hph
        exact absurd hph (by simp)
      · exact iff_of_false (by simp) (by omega)
      · exact iff_of_true rfl (by omega)
      · exact iff_of_false (by simp) (by omega)
      · show (0 : ℚ) ≤ if c > 1 / 100 then max 0 ((n : ℚ) / c - (n : ℚ)) else 0
        split_ifs with hc
        · exact le_max_left 0 _
        · exact le_refl 0
    · rw [if_neg h2]
      refine ⟨?_, fun _ => rfl, ?_, ?_, ?_, ?_⟩
      · intro hph
        rcases hph with hph | hph <;> exact absurd hph (by simp)
      · exact iff_of_true rfl (by omega)
      · exact iff_of_false (by simp) (by omega)
      · exact iff_of_false (by simp) (by omega)
      · exact le_refl 0

theorem mkDailyRow_age (dist : List LagBucket) (d p90 : Nat) (s : Int) (e : DayAgg) :
    (mkDailyRow dist d p90 s e).age = s - e.date := rfl

theorem mkDailyRow_realized (dist : List LagBucket) (d p90 : Nat) (s : Int) (e : DayAgg) :
    (mkDailyRow dist d p90 s e).realized = e.ret := rfl

theorem mkDailyRow_lagPct (dist : List LagBucket) (d p90 : Nat) (s : Int) (e : DayAgg) :
    (mkDailyRow dist d p90 s e).lagPct = getCumulativePct dist (s - e.date) := rfl

theorem mkDailyRow_phase (dist : List LagBucket) (d p90 : Nat) (s : Int) (e : DayAgg) :
    (mkDailyRow dist d p90 s e).phase =
      (grossUpBranch d p90 (s - e.date) (getCumulativePct dist (s - e.date)) e.ret).1 := rfl

theorem mkDailyRow_forecastAdd (dist : List LagBucket) (d p90 : Nat) (s : Int) (e : DayAgg) :
    (mkDailyRow dist d p90 s e).forecastAdd =
      (grossUpBranch d p90 (s - e.date) (getCumulativePct dist (s - e.date)) e.ret).2.2.2 := rfl

theorem mkDailyRow_projectedTotal (dist : List LagBucket) (d p90 : Nat) (s : Int) (e : DayAgg) :
    (mkDailyRow dist d p90 s e).projectedTotal =
      (e.ret : ℚ) +
        (grossUpBranch d p90 (s - e.date) (getCumulativePct dist (s - e.date)) e.ret).2.2.2 := rfl

/-- Claim C3: in every returned maturity analysis, a cohort day in the
mature or finalized phase is grossed up — `forecastAdd` is
`max 0 (realized / fraction - realized)` when its cumulative fraction
exceeds 0.01 and `0` otherwise, with `projectedTotal = realized +
forecastAdd ≥ realized` — while a ramp-up day has `forecastAdd = 0` and
`projectedTotal = realized` exactly; and the phases are exactly the age
bands `age < P50`, `P50 ≤ age ≤ P90`, `age > P90`. -/
theorem grossup_phase_forecast_spec (data : AppData) (r : MaturityAnalysisResult)
    (h : analyzeMaturity data = some r) (row : DailyProjectionRow)
    (hrow : row ∈ r.dailyProjections) :
    ((row.phase = Phase.mature ∨ row.phase = Phase.finalized) →
      row.forecastAdd = (if row.lagPct > 1 / 100 then
        max 0 ((row.realized : ℚ) / row.lagPct - (row.realized : ℚ)) else 0) ∧
      row.projectedTotal = (row.realized : ℚ) + row.forecastAdd ∧
      (row.realized : ℚ) ≤ row.projectedTotal) ∧
    (row.phase = Phase.rampup →
      row.forecastAdd = 0 ∧ row.projectedTotal = (row.realized : ℚ)) ∧
    (row.phase = Phase.rampup ↔ row.age < (r.d_value : Int)) ∧
    (row.phase = Phase.mature ↔
      ((r.d_value : Int) ≤ row.age ∧ row.age ≤ (r.p90_value : Int))) ∧
    (row.phase = Phase.finalized ↔ (r.p90_value : Int) < row.age) := by
  obtain ⟨orders, t0, hor, ht, hne, hr⟩ := analyzeMaturity_some_inv data r h
  subst hr
  rw [buildMaturityResult_dailyProjections] at hrow
  have hrow2 : row ∈ dailyRowsUnsortedOf orders t0 (effSpan data.comparisonSpan) :=
    (List.perm_insertionSort _ _).mem_iff.mp hrow
  rw [dailyRowsUnsortedOf] at hrow2
  obtain ⟨e, he, hEq⟩ := List.mem_map.mp hrow2
  subst hEq
  have spec := grossUpBranch_spec (computeMarkers (lagsOf orders t0)).2.1
    (computeMarkers (lagsOf orders t0)).2.2 (maxPurchaseTime orders - e.date)
    (getCumulativePct
      (buildHistogram (lagsOf orders t0) (computeMarkers (lagsOf orders t0)).2.2)
      (maxPurchaseTime orders - e.date))
    e.ret (computeMarkers_d_le_p90 (lagsOf orders t0))
  rw [buildMaturityResult_d, buildMaturityResult_p90, mkDailyRow_age, mkDailyRow_phase,
    mkDailyRow_forecastAdd, mkDailyRow_projectedTotal, mkDailyRow_lagPct, mkDailyRow_realized]
  refine ⟨?_, ?_, spec.2.2.1, spec.2.2.2.1, spec.2.2.2.2.1⟩
  · intro hph
    refine ⟨spec.1 hph, rfl, ?_⟩
    have h0 := spec.2.2.2.2.2
    linarith
  · intro hph
    refine ⟨spec.2.1 hph, ?_⟩
    rw [spec.2.1 hph, add_zero]

/-- The C3/C5/C9 maturity witness orders: one baseline return with lag 5
(markers `P50 = 5`, `P90 = 10`), a finalized cohort day at age 15 and a
ramp-up day at age 0. -/
def c3Orders : List RawOrderRow :=
  [{ purchase_date := 50, return_date := some 55, units_sold := 1, units_returned := none },
   { purchase_date := 105, return_date := some 107, units_sold := 2, units_returned := none },
   { purchase_date := 120, return_date := none, units_sold := 1, units_returned := none }]

/-- The C3/C5/C9 maturity witness input (cutoff 100, default span). -/
def c3Data : AppData :=
  { return_order := some c3Orders, t0Date := some 100, comparisonSpan := none }

/-- The C3/C5/C9 maturity witness result. -/
def c3Res : MaturityAnalysisResult := (analyzeMaturity c3Data).getD default

/-- The oldest cohort-day row (age 15, finalized) of the witness run. -/
def c3Row : DailyProjectionRow := c3Res.dailyProjections.head (by decide)

/-- Witness for C3 at the concrete two-cohort-day input. -/
theorem grossup_phase_forecast_spec_witness :
    ((c3Row.phase = Phase.mature ∨ c3Row.phase = Phase.finalized) →
      c3Row.forecastAdd = (if c3Row.lagPct > 1 / 100 then
        max 0 ((c3Row.realized : ℚ) / c3Row.lagPct - (c3Row.realized : ℚ)) else 0) ∧
      c3Row.projectedTotal = (c3Row.realized : ℚ) + c3Row.forecastAdd ∧
      (c3Row.realized : ℚ) ≤ c3Row.projectedTotal) ∧
    (c3Row.phase = Phase.rampup →
      c3Row.forecastAdd = 0 ∧ c3Row.projectedTotal = (c3Row.realized : ℚ)) ∧
    (c3Row.phase = Phase.rampup ↔ c3Row.age < (c3Res.d_value : Int)) ∧
    (c3Row.phase = Phase.mature ↔
      ((c3Res.d_value : Int) ≤ c3Row.age ∧ c3Row.age ≤ (c3Res.p90_value : Int))) ∧
    (c3Row.phase = Phase.finalized ↔ (c3Res.p90_value : Int) < c3Row.age) :=
  grossup_phase_forecast_spec c3Data c3Res rfl c3Row (List.head_mem _)

/-! ### Claim C5: projection roll-up -/

theorem foldl_bumpBucket_spec (rows : List DailyProjectionRow) (acc : BucketsAcc) :
    ((rows.foldl bumpBucket acc).finalized.volume =
      acc.finalized.volume +
        ((rows.filter (fun x => x.phase = Phase.finalized)).map (·.sales)).sum) ∧
    ((rows.foldl bumpBucket acc).finalized.realizedReturns =
      acc.finalized.realizedReturns +
        ((rows.filter (fun x => x.phase = Phase.finalized)).map (·.realized)).sum) ∧
    ((rows.foldl bumpBucket acc).finalized.forecastedReturns =
      acc.finalized.forecastedReturns +
        ((rows.filter (fun x => x.phase = Phase.finalized)).map (·.forecastAdd)).sum) ∧
    ((rows.foldl bumpBucket acc).mature.volume =
      acc.mature.volume +
        ((rows.filter (fun x => x.phase = Phase.mature)).map (·.sales)).sum) ∧
    ((rows.foldl bumpBucket acc).mature.realizedReturns =
      acc.mature.realizedReturns +
        ((rows.filter (fun x => x.phase = Phase.mature)).map (·.realized)).sum) ∧
    ((rows.foldl bumpBucket acc).mature.forecastedReturns =
      acc.mature.forecastedReturns +
        ((rows.filter (fun x => x.phase = Phase.mature)).map (·.forecastAdd)).sum) ∧
    ((rows.foldl bumpBucket acc).rampup.volume =
      acc.rampup.volume +
        ((rows.filter (fun x => x.phase = Phase.rampup)).map (·.sales)).sum) ∧
    ((rows.foldl bumpBucket acc).rampup.realizedReturns =
      acc.rampup.realizedReturns +
        ((rows.filter (fun x => x.phase = Phase.rampup)).map (·.realized)).sum) ∧
    ((rows.foldl bumpBucket acc).rampup.forecastedReturns =
      acc.rampup.forecastedReturns +
        ((rows.filter (fun x => x.phase = Phase.rampup)).map (·.forecastAdd)).sum) := by
  induction rows generalizing acc with
  | nil => simp
  | cons a t ih =>
    obtain ⟨i1, i2, i3, i4, i5, i6, i7, i8, i9⟩ := ih (bumpBucket acc a)
    rw [List.foldl_cons]
    cases hph : a.phase <;>
      refine ⟨?_, ?_, ?_, ?_, ?_, ?_, ?_, ?_, ?_⟩ <;>
        simp only [i1, i2, i3, i4, i5, i6, i7, i8, i9] <;>
          simp [bumpBucket, hph] <;>
            ring

theorem accumBuckets_spec (rows : List DailyProjectionRow) :
    ((accumBuckets rows).finalized.volume =
      ((rows.filter (fun x => x.phase = Phase.finalized)).map (·.sales)).sum) ∧
    ((accumBuckets rows).finalized.realizedReturns =
      ((rows.filter (fun x => x.phase = Phase.finalized)).map (·.realized)).sum) ∧
    ((accumBuckets rows).finalized.forecastedReturns =
      ((rows.filter (fun x => x.phase = Phase.finalized)).map (·.forecastAdd)).sum) ∧
    ((accumBuckets rows).mature.volume =
      ((rows.filter (fun x => x.phase = Phase.mature)).map (·.sales)).sum) ∧
    ((accumBuckets rows).mature.realizedReturns =
      ((rows.filter (fun x => x.phase = Phase.mature)).map (·.realized)).sum) ∧
    ((accumBuckets rows).mature.forecastedReturns =
      ((rows.filter (fun x => x.phase = Phase.mature)).map (·.forecastAdd)).sum) ∧
    ((accumBuckets rows).rampup.volume =
      ((rows.filter (fun x => x.phase = Phase.rampup)).map (·.sales)).sum) := by
  obtain ⟨h1, h2, h3, h4, h5, h6, h7, _, _⟩ := foldl_bumpBucket_spec rows initBuckets
  refine ⟨?_, ?_, ?_, ?_, ?_, ?_, ?_⟩
  · rw [accumBuckets, h1]
    simp [initBuckets]
  · rw [accumBuckets, h2]
    simp [initBuckets]
  · rw [accumBuckets, h3]
    simp [initBuckets]
  · rw [accumBuckets, h4]
    simp [initBuckets]
  · rw [accumBuckets, h5]
    simp [initBuckets]
  · rw [accumBuckets, h6]
    simp [initBuckets]
  · rw [accumBuckets, h7]
    simp [initBuckets]

theorem sum_map_partition_phase (rows : List DailyProjectionRow)
    (f : DailyProjectionRow → Nat) :
    (rows.map f).sum =
      ((rows.filter (fun x => x.phase = Phase.finalized)).map f).sum +
      ((rows.filter (fun x => x.phase = Phase.mature)).map f).sum +
      ((rows.filter (fun x => x.phase = Phase.rampup)).map f).sum := by
  induction rows with
  | nil => rfl
  | cons a t ih => cases hph : a.phase <;> simp [hph, ih] <;> omega

theorem buildMaturityResult_projectedRate (o : List RawOrderRow) (t s : Int) :
    (buildMaturityResult o t s).projection.projectedRate =
      (if 0 < (accumBuckets (dailyRowsUnsortedOf o t s)).finalized.volume +
          (accumBuckets (dailyRowsUnsortedOf o t s)).mature.volume then
        some (((((accumBuckets (dailyRowsUnsortedOf o t s)).finalized.realizedReturns +
              (accumBuckets (dailyRowsUnsortedOf o t s)).mature.realizedReturns : ℕ) : ℚ) +
            ((accumBuckets (dailyRowsUnsortedOf o t s)).finalized.forecastedReturns +
              (accumBuckets (dailyRowsUnsortedOf o t s)).mature.forecastedReturns)) /
          (((accumBuckets (dailyRowsUnsortedOf o t s)).finalized.volume +
            (accumBuckets (dailyRowsUnsortedOf o t s)).mature.volume : ℕ) : ℚ))
      else none) := rfl

theorem buildMaturityResult_confidence (o : List RawOrderRow) (t s : Int) :
    (buildMaturityResult o t s).confidenceScore =
      (if 0 < (accumBuckets (dailyRowsUnsortedOf o t s)).finalized.volume +
          (accumBuckets (dailyRowsUnsortedOf o t s)).mature.volume +
          (accumBuckets (dailyRowsUnsortedOf o t s)).rampup.volume then
        (((accumBuckets (dailyRowsUnsortedOf o t s)).finalized.volume +
            (accumBuckets (dailyRowsUnsortedOf o t s)).mature.volume : ℕ) : ℚ) /
          (((accumBuckets (dailyRowsUnsortedOf o t s)).finalized.volume +
            (accumBuckets (dailyRowsUnsortedOf o t s)).mature.volume +
            (accumBuckets (dailyRowsUnsortedOf o t s)).rampup.volume : ℕ) : ℚ)
      else 0) := rfl

theorem buildMaturityResult_status (o : List RawOrderRow) (t s : Int) :
    (buildMaturityResult o t s).maturityStatus =
      (if (buildMaturityResult o t s).confidenceScore ≥ 1 / 2 then MStatus.projecting
       else MStatus.insufficient) := rfl

/-- Claim C5: the projection roll-up counts only mature + finalized
volume as reliable; `projectedRate` is the reliable projected total over
the reliable volume and is `none` — not 0 — on zero reliable volume;
`confidenceScore` is reliable volume over total volume (0 without any
volume); and the status is `projecting` exactly when the confidence is
at least one half. -/
theorem projection_rollup_spec (data : AppData) (r : MaturityAnalysisResult)
    (h : analyzeMaturity data = some r) :
    (((r.dailyProjections.filter (fun x => x.phase = Phase.finalized)).map (·.sales)).sum +
        ((r.dailyProjections.filter (fun x => x.phase = Phase.mature)).map (·.sales)).sum = 0 →
      r.projection.projectedRate = none) ∧
    (0 < ((r.dailyProjections.filter (fun x => x.phase = Phase.finalized)).map (·.sales)).sum +
        ((r.dailyProjections.filter (fun x => x.phase = Phase.mature)).map (·.sales)).sum →
      r.projection.projectedRate = some (
        (((((r.dailyProjections.filter (fun x => x.phase = Phase.finalized)).map
              (·.realized)).sum +
            ((r.dailyProjections.filter (fun x => x.phase = Phase.mature)).map
              (·.realized)).sum : ℕ) : ℚ) +
          (((r.dailyProjections.filter (fun x => x.phase = Phase.finalized)).map
              (·.forecastAdd)).sum +
            ((r.dailyProjections.filter (fun x => x.phase = Phase.mature)).map
              (·.forecastAdd)).sum)) /
        ((((r.dailyProjections.filter (fun x => x.phase = Phase.finalized)).map
            (·.sales)).sum +
          ((r.dailyProjections.filter (fun x => x.phase = Phase.mature)).map
            (·.sales)).sum : ℕ) : ℚ))) ∧
    r.confidenceScore =
      (if 0 < (r.dailyProjections.map (·.sales)).sum then
        ((((r.dailyProjections.filter (fun x => x.phase = Phase.finalized)).map
            (·.sales)).sum +
          ((r.dailyProjections.filter (fun x => x.phase = Phase.mature)).map
            (·.sales)).sum : ℕ) : ℚ) /
          (((r.dailyProjections.map (·.sales)).sum : ℕ) : ℚ)
      else 0) ∧
    (r.maturityStatus = MStatus.projecting ↔ 1 / 2 ≤ r.confidenceScore) := by
  obtain ⟨orders, t0, hor, ht, hne, hr⟩ := analyzeMaturity_some_inv data r h
  subst hr
  have hperm : List.Perm
      ((dailyRowsUnsortedOf orders t0 (effSpan data.comparisonSpan)).insertionSort
        (fun a b => b.age ≤ a.age))
      (dailyRowsUnsortedOf orders t0 (effSpan data.comparisonSpan)) :=
    List.perm_insertionSort _ _
  obtain ⟨b1, b2, b3, b4, b5, b6, b7⟩ :=
    accumBuckets_spec (dailyRowsUnsortedOf orders t0 (effSpan data.comparisonSpan))
  have hFs := ((hperm.filter (fun x => decide (x.phase = Phase.finalized))).map
    (fun x => x.sales)).sum_eq
  have hMs := ((hperm.filter (fun x => decide (x.phase = Phase.mature))).map
    (fun x => x.sales)).sum_eq
  have hFr := ((hperm.filter (fun x => decide (x.phase = Phase.finalized))).map
    (fun x => x.realized)).sum_eq
  have hMr := ((hperm.filter (fun x => decide (x.phase = Phase.mature))).map
    (fun x => x.realized)).sum_eq
  have hFf := ((hperm.filter (fun x => decide (x.phase = Phase.finalized))).map
    (fun x => x.forecastAdd)).sum_eq
  have hMf := ((hperm.filter (fun x => decide (x.phase = Phase.mature))).map
    (fun x => x.forecastAdd)).sum_eq
  have hTot := (hperm.map (fun x => x.sales)).sum_eq
  refine ⟨?_, ?_, ?_, ?_⟩
  · intro h0
    rw [buildMaturityResult_dailyProjections, hFs, hMs] at h0
    rw [buildMaturityResult_projectedRate, if_neg]
    rw [b1, b4]
    omega
  · intro h0
    rw [buildMaturityResult_dailyProjections, hFs, hMs] at h0
    rw [buildMaturityResult_projectedRate, buildMaturityResult_dailyProjections,
      hFs, hMs, hFr, hMr, hFf, hMf, b1, b2, b3, b4, b5, b6, if_pos]
    omega
  · rw [buildMaturityResult_confidence, buildMaturityResult_dailyProjections,
      hFs, hMs, hTot, b1, b4, b7,
      sum_map_partition_phase (dailyRowsUnsortedOf orders t0 (effSpan data.comparisonSpan))
        (fun x => x.sales)]
  · rw [buildMaturityResult_status]
    split_ifs with hc
    · exact iff_of_true rfl hc
    · exact iff_of_false (by simp) hc

/-- Witness for C5 at the concrete two-cohort-day input (one finalized
day of volume 2, one ramp-up day of volume 1). -/
theorem projection_rollup_spec_witness :
    (((c3Res.dailyProjections.filter (fun x => x.phase = Phase.finalized)).map
          (·.sales)).sum +
        ((c3Res.dailyProjections.filter (fun x => x.phase = Phase.mature)).map
          (·.sales)).sum = 0 →
      c3Res.projection.projectedRate = none) ∧
    (0 < ((c3Res.dailyProjections.filter (fun x => x.phase = Phase.finalized)).map
          (·.sales)).sum +
        ((c3Res.dailyProjections.filter (fun x => x.phase = Phase.mature)).map
          (·.sales)).sum →
      c3Res.projection.projectedRate = some (
        (((((c3Res.dailyProjections.filter (fun x => x.phase = Phase.finalized)).map
              (·.realized)).sum +
            ((c3Res.dailyProjections.filter (fun x => x.phase = Phase.mature)).map
              (·.realized)).sum : ℕ) : ℚ) +
          (((c3Res.dailyProjections.filter (fun x => x.phase = Phase.finalized)).map
              (·.forecastAdd)).sum +
            ((c3Res.dailyProjections.filter (fun x => x.phase = Phase.mature)).map
              (·.forecastAdd)).sum)) /
        ((((c3Res.dailyProjections.filter (fun x => x.phase = Phase.finalized)).map
            (·.sales)).sum +
          ((c3Res.dailyProjections.filter (fun x => x.phase = Phase.mature)).map
            (·.sales)).sum : ℕ) : ℚ))) ∧
    c3Res.confidenceScore =
      (if 0 < (c3Res.dailyProjections.map (·.sales)).sum then
        ((((c3Res.dailyProjections.filter (fun x => x.phase = Phase.finalized)).map
            (·.sales)).sum +
          ((c3Res.dailyProjections.filter (fun x => x.phase = Phase.mature)).map
            (·.sales)).sum : ℕ) : ℚ) /
          (((c3Res.dailyProjections.map (·.sales)).sum : ℕ) : ℚ)
      else 0) ∧
    (c3Res.maturityStatus = MStatus.projecting ↔ 1 / 2 ≤ c3Res.confidenceScore) :=
  projection_rollup_spec c3Data c3Res rfl

/-! ### Claim C9: zero-denominator guards on every rate field -/

theorem calcStats_rate (subset : List RawOrderRow) :
    (calcStats subset).rate =
      (if 0 < (calcStats subset).volume then
        ((calcStats subset).returns : ℚ) / ((calcStats subset).volume : ℚ) else 0) := rfl

theorem mkDailyRow_currentRate (dist : List LagBucket) (d p90 : Nat) (s : Int) (e : DayAgg) :
    (mkDailyRow dist d p90 s e).currentRate =
      (if 0 < (mkDailyRow dist d p90 s e).sales then
        ((mkDailyRow dist d p90 s e).realized : ℚ) / ((mkDailyRow dist d p90 s e).sales : ℚ)
      else 0) := rfl

theorem mkDailyRow_projectedRate (dist : List LagBucket) (d p90 : Nat) (s : Int) (e : DayAgg) :
    (mkDailyRow dist d p90 s e).projectedRate =
      (if 0 < (mkDailyRow dist d p90 s e).sales then
        (mkDailyRow dist d p90 s e).projectedTotal / ((mkDailyRow dist d p90 s e).sales : ℚ)
      else 0) := rfl

/-- Claim C9: every rate produced by the two engines is the
corresponding returns total divided by the corresponding sales total
when that sales total is positive, and 0 when the sales total is zero —
never a division of anything by zero (no NaN). -/
theorem rates_guarded_spec (dataM dataC : AppData) (ordersC : List RawOrderRow)
    (rM : MaturityAnalysisResult) (rC : ContrastResult)
    (hM : analyzeMaturity dataM = some rM)
    (hC : analyzeContrast dataC = some rC)
    (hOrd : dataC.return_order = some ordersC) :
    (rC.before.rate =
      (if 0 < rC.before.sales then (rC.before.returns : ℚ) / (rC.before.sales : ℚ) else 0)) ∧
    (rC.after.rate =
      (if 0 < rC.after.sales then (rC.after.returns : ℚ) / (rC.after.sales : ℚ) else 0)) ∧
    (∀ p ∈ rC.velocityChart,
      p.afterRate = (if 0 < rC.after.sales then
        (cumAfterVelocity ordersC (rC.t0 + 1) rC.runDays p.day : ℚ) / (rC.after.sales : ℚ)
      else 0) ∧
      p.beforeRate = (if 0 < rC.before.sales then
        (cumBeforeVelocity ordersC (rC.t0 + 1) (rC.t0 - (rC.runDays : Int)) rC.s rC.runDays
          p.day : ℚ) / (rC.before.sales : ℚ)
      else 0)) ∧
    (∀ m ∈ [rM.metrics.pre, rM.metrics.reference, rM.metrics.postMature,
        rM.metrics.postNominal],
      m.rate = (if 0 < m.volume then (m.returns : ℚ) / (m.volume : ℚ) else 0)) ∧
    (∀ row ∈ rM.dailyProjections,
      row.currentRate =
        (if 0 < row.sales then (row.realized : ℚ) / (row.sales : ℚ) else 0) ∧
      row.projectedRate =
        (if 0 < row.sales then row.projectedTotal / (row.sales : ℚ) else 0)) := by
  obtain ⟨ordersC2, tC, horC, htC, hneC, hmaxC, hrC⟩ := analyzeContrast_some_inv dataC rC hC
  have hoC : ordersC = ordersC2 := by
    rw [hOrd] at horC
    exact Option.some.inj horC
  subst hoC
  subst hrC
  obtain ⟨ordersM, tM, horM, htM, hneM, hrM⟩ := analyzeMaturity_some_inv dataM rM hM
  subst hrM
  refine ⟨buildContrastResult_before_rate _ _, buildContrastResult_after_rate _ _, ?_, ?_, ?_⟩
  · intro p hp
    rw [buildContrastResult_velocityChart] at hp
    obtain ⟨d, hd, rfl⟩ := List.mem_map.mp hp
    exact ⟨rfl, rfl⟩
  · intro m hm
    simp only [List.mem_cons, List.not_mem_nil, or_false] at hm
    rcases hm with rfl | rfl | rfl | rfl
    · exact calcStats_rate _
    · exact calcStats_rate _
    · exact calcStats_rate _
    · exact calcStats_rate _
  · intro row hrow
    rw [buildMaturityResult_dailyProjections] at hrow
    have hrow2 : row ∈ dailyRowsUnsortedOf ordersM tM (effSpan dataM.comparisonSpan) :=
      (List.perm_insertionSort _ _).mem_iff.mp hrow
    rw [dailyRowsUnsortedOf] at hrow2
    obtain ⟨e, he, rfl⟩ := List.mem_map.mp hrow2
    exact ⟨mkDailyRow_currentRate _ _ _ _ _, mkDailyRow_projectedRate _ _ _ _ _⟩

/-- Witness for C9 at the two concrete inputs (contrast run `c4Data`,
maturity run `c3Data`). -/
theorem rates_guarded_spec_witness :
    (c4Res.before.rate =
      (if 0 < c4Res.before.sales then
        (c4Res.before.returns : ℚ) / (c4Res.before.sales : ℚ) else 0)) ∧
    (c4Res.after.rate =
      (if 0 < c4Res.after.sales then
        (c4Res.after.returns : ℚ) / (c4Res.after.sales : ℚ) else 0)) ∧
    (∀ p ∈ c4Res.velocityChart,
      p.afterRate = (if 0 < c4Res.after.sales then
        (cumAfterVelocity c4Orders (c4Res.t0 + 1) c4Res.runDays p.day : ℚ) /
          (c4Res.after.sales : ℚ)
      else 0) ∧
      p.beforeRate = (if 0 < c4Res.before.sales then
        (cumBeforeVelocity c4Orders (c4Res.t0 + 1) (c4Res.t0 - (c4Res.runDays : Int)) c4Res.s
          c4Res.runDays p.day : ℚ) / (c4Res.before.sales : ℚ)
      else 0)) ∧
    (∀ m ∈ [c3Res.metrics.pre, c3Res.metrics.reference, c3Res.metrics.postMature,
        c3Res.metrics.postNominal],
      m.rate = (if 0 < m.volume then (m.returns : ℚ) / (m.volume : ℚ) else 0)) ∧
    (∀ row ∈ c3Res.dailyProjections,
      row.currentRate =
        (if 0 < row.sales then (row.realized : ℚ) / (row.sales : ℚ) else 0) ∧
      row.projectedRate =
        (if 0 < row.sales then row.projectedTotal / (row.sales : ℚ) else 0)) :=
  rates_guarded_spec c3Data c4Data c4Orders c3Res c4Res rfl rfl rfl

end ReturnsInsight
